import Mathlib

/-
Shallow embedding of src/madang_manager.py, a single-module Streamlit
application over a MySQL "madang" bookstore schema.  Pure data flow is
modelled directly; the database is a record of table contents, session
state is passed explicitly, and Python keyword-argument binding is
modelled where it decides behaviour (the run_query call at line 127).
-/

namespace Madang

/-- A row of the Customer table: Customer(custid, name). -/
structure Customer where
  custid : Int
  name : String
deriving DecidableEq, Repr

/-- A row of the Book table: Book(bookid, bookname). -/
structure Book where
  bookid : Int
  bookname : String
deriving DecidableEq, Repr

/-- A row of the Orders table: Orders(orderid, custid, bookid, saleprice, orderdate). -/
structure Order where
  orderid : Int
  custid : Int
  bookid : Int
  saleprice : Int
  orderdate : String
deriving DecidableEq, Repr

/-- The madang database: the three tables the application touches. -/
structure DB where
  customers : List Customer
  orders : List Order
  books : List Book
deriving DecidableEq, Repr

/-- A Python value bound as a query parameter (pymysql receives strings and ints here). -/
inductive PyVal where
  | str (s : String)
  | int (n : Int)
deriving DecidableEq, Repr

/-- One result row of the tab1 join query: columns
c.custid, c.name, b.bookname, o.orderdate, o.saleprice (lines 70-76). -/
structure JoinRow where
  custid : Int
  name : String
  bookname : String
  orderdate : String
  saleprice : Int
deriving DecidableEq, Repr

/-- Semantics of the sql_select query of lines 70-76:
SELECT c.custid, c.name, b.bookname, o.orderdate, o.saleprice
FROM Customer c JOIN Orders o ON c.custid = o.custid
JOIN Book b ON o.bookid = b.bookid WHERE c.name = nm. -/
def sqlSelectJoin (db : DB) (nm : String) : List JoinRow :=
  db.customers.flatMap fun c =>
    db.orders.flatMap fun o =>
      db.books.flatMap fun b =>
        if c.custid = o.custid ∧ o.bookid = b.bookid ∧ c.name = nm then
          [⟨c.custid, c.name, b.bookname, o.orderdate, o.saleprice⟩]
        else []

/-- Declarative characterisation of the join of lines 70-76: a row is produced
exactly when a customer with the looked-up name, one of that customer's orders,
and the ordered book line up. -/
def joinSpec (db : DB) (nm : String) (r : JoinRow) : Prop :=
  ∃ c ∈ db.customers, ∃ o ∈ db.orders, ∃ b ∈ db.books,
    c.custid = o.custid ∧ o.bookid = b.bookid ∧ c.name = nm ∧
    r = ⟨c.custid, c.name, b.bookname, o.orderdate, o.saleprice⟩

theorem mem_sqlSelectJoin {db : DB} {nm : String} {r : JoinRow} :
    r ∈ sqlSelectJoin db nm ↔ joinSpec db nm r := by
  simp only [sqlSelectJoin, joinSpec, List.mem_flatMap]
  constructor
  · rintro ⟨c, hc, o, ho, b, hb, hr⟩
    split at hr
    · rename_i hcond
      simp only [List.mem_singleton] at hr
      exact ⟨c, hc, o, ho, b, hb, hcond.1, hcond.2.1, hcond.2.2, hr⟩
    · simp at hr
  · rintro ⟨c, hc, o, ho, b, hb, h1, h2, h3, hr⟩
    refine ⟨c, hc, o, ho, b, hb, ?_⟩
    rw [if_pos ⟨h1, h2, h3⟩]
    simp [hr]

/-- Session state of lines 64-66 and 90-104: st.session_state holds
current_custid (Python None or an int) and current_name (Python None or a
string; initialised to the empty string). -/
structure SessionState where
  current_custid : Option Int
  current_name : Option String
deriving DecidableEq, Repr

/-- What tab1 displays after the lookup of lines 68-104. -/
inductive LookupDisplay where
  | ordersTable (rows : List JoinRow)
  | custOnlyInfo (custid : Int)
  | notFound
  | noAction
deriving DecidableEq, Repr

/-- Semantics of the query of line 96: SELECT custid FROM Customer WHERE name = nm
(the whole matching rows, from which the handler reads custid). -/
def customerQuery (db : DB) (nm : String) : List Customer :=
  db.customers.filter fun c => c.name = nm

/-- The tab1 lookup handler, lines 68-104: with a non-empty name it runs the
join query; a non-empty result is displayed and the first row's custid stored
in session state (lines 80-92); otherwise the customer-only query decides
between the informational branch (lines 97-100) and the not-found branch
(lines 101-104), which resets both session fields to None. -/
def tab1_lookup (db : DB) (st : SessionState) (nm : String) :
    LookupDisplay × SessionState :=
  if nm.length > 0 then
    match sqlSelectJoin db nm with
    | r :: rs => (.ordersTable (r :: rs), ⟨some r.custid, some nm⟩)
    | [] =>
      match customerQuery db nm with
      | c :: _ => (.custOnlyInfo c.custid, ⟨some c.custid, some nm⟩)
      | [] => (.notFound, ⟨Option.none, Option.none⟩)
  else (.noAction, st)

/-- The SQL text of lines 70-76, a string literal in the source. -/
def sql_select : String :=
  "SELECT c.custid, c.name, b.bookname, o.orderdate, o.saleprice FROM Customer c JOIN Orders o ON c.custid = o.custid JOIN Book b ON o.bookid = b.bookid WHERE c.name = %s;"

/-- The SQL text of line 96, a string literal in the source. -/
def sql_customer : String := "SELECT custid FROM Customer WHERE name = %s"

/-- The SQL text of line 127, a string literal in the source. -/
def sql_max_orderid : String := "SELECT MAX(orderid) AS max_id FROM Orders"

/-- The SQL text of lines 133-136, a string literal in the source. -/
def sql_insert : String :=
  "INSERT INTO Orders (orderid, custid, bookid, saleprice, orderdate) VALUES (%s, %s, %s, %s, %s);"

/-- The (sql, parameters) pairs tab1 hands to run_query for a given input name:
line 78 always when the name is non-empty, line 96 additionally when the join
result is empty.  The SQL components are the string literals above; the input
name travels only in the parameter tuple. -/
def tab1_statements (db : DB) (nm : String) : List (String × List PyVal) :=
  if nm.length > 0 then
    if sqlSelectJoin db nm = [] then
      [(sql_select, [PyVal.str nm]), (sql_customer, [PyVal.str nm])]
    else [(sql_select, [PyVal.str nm])]
  else []

/-- Outcome of the cursor.execute call inside run_query (line 40): either the
fetched rows together with cursor.rowcount, or a raised pymysql.Error. -/
inductive ExecOutcome where
  | ok (rows : List (List (String × PyVal))) (rowcount : Int)
  | err (msg : String)
deriving DecidableEq, Repr

/-- A Python return value of run_query: a list of rows (fetchall) or an int
(rowcount). -/
inductive PyRet where
  | list (rows : List (List (String × PyVal)))
  | int (n : Int)
deriving DecidableEq, Repr

/-- Observable behaviour of one run_query call: its return value, how many
times it ran cursor.execute, whether it committed, the st.error message it
displayed if any, and how many reconnection attempts it made. -/
structure RunQueryResult where
  ret : PyRet
  executeCount : Nat
  committed : Bool
  errorMessage : Option String
  reconnects : Nat
deriving DecidableEq, Repr

/-- run_query, lines 35-47: executes the statement once; on success returns
the rowcount after committing when commit=True, else the fetched rows; a
pymysql.Error is caught, shown via st.error, and the function returns the
empty list.  It never retries and never touches the connection setup. -/
def run_query (outcome : ExecOutcome) (commit : Bool) : RunQueryResult :=
  match outcome with
  | .ok rows rc =>
    if commit then ⟨.int rc, 1, true, Option.none, 0⟩
    else ⟨.list rows, 1, false, Option.none, 0⟩
  | .err m => ⟨.list [], 1, false, some m, 0⟩

/-- The parameter names of def run_query(sql, params=None, commit=False)
at line 35. -/
def run_query_params : List String := ["sql", "params", "commit"]

/-- Python keyword-argument binding for run_query, which has no **kwargs:
a call binds only if every supplied keyword is one of the declared parameter
names; otherwise Python raises TypeError before the function body runs. -/
def acceptsKwargs (ks : List String) : Bool :=
  ks.all fun k => run_query_params.contains k

/-- SQL MAX(orderid) over the Orders table: NULL (None) when the table is
empty, else the maximum orderid. -/
def max_orderid (orders : List Order) : Option Int :=
  orders.foldl
    (fun acc o => some (match acc with
      | Option.none => o.orderid
      | some m => max m o.orderid))
    Option.none

/-- The computation of line 128: take the max_id cell of the MAX query row,
turn a NULL maximum into 0 via the Python or-expression, and add 1. -/
def next_orderid (orders : List Order) : Int :=
  (max_orderid orders).getD 0 + 1

/-- What the submit handler of lines 125-143 produces. -/
inductive SubmitResult where
  | typeError (kwarg : String)
  | success (orderid : Int)
deriving DecidableEq, Repr

/-- The button handler of lines 125-143.  Its first action (line 127) calls
run_query("SELECT MAX(orderid) AS max_id FROM Orders", fetch_all=False); the
keyword fetch_all is not a parameter of run_query, so the call binds only if
acceptsKwargs ["fetch_all"] holds — otherwise Python raises TypeError there,
before line 128, and the handler performs no database statement and changes
nothing.  The other branch is the continuation the code spells out for a bound
call: compute next_orderid (line 128), build the parameterized INSERT of lines
133-137 (bookid is the string split off the "id,name" selectbox value at line
123) and report success with the new orderid (line 143; a one-row INSERT has
rowcount 1, passing the check of line 142). -/
def tab2_submit (db : DB) (custid : Int) (bookidStr : String) (price : Int)
    (today : String) : SubmitResult × DB × List (String × List PyVal) :=
  if acceptsKwargs ["fetch_all"] then
    let orderid := next_orderid db.orders
    let newOrder : Order :=
      ⟨orderid, custid, (bookidStr.toInt?).getD 0, price, today⟩
    (.success orderid,
     { db with orders := db.orders ++ [newOrder] },
     [(sql_max_orderid, ([] : List PyVal)),
      (sql_insert, [PyVal.int orderid, PyVal.int custid, PyVal.str bookidStr,
                    PyVal.int price, PyVal.str today])])
  else (.typeError "fetch_all", db, [])

/-- What tab2 renders, lines 107-149: the order form when the session custid
is truthy, otherwise the warning of line 149. -/
inductive Tab2View where
  | orderForm (custid : Int)
  | warnNoCustomer
deriving DecidableEq, Repr

/-- Python truthiness of the session custid value read at line 108:
None is falsy and the int 0 is falsy. -/
def pyTruthy : Option Int → Bool
  | Option.none => false
  | some n => n != 0

/-- The guard of line 111: `if custid:` on the session custid. -/
def tab2_render (st : SessionState) : Tab2View :=
  if pyTruthy st.current_custid then .orderForm (st.current_custid.getD 0)
  else .warnNoCustomer

/-- One interaction with tab2, lines 107-149: when the custid guard fails only
the warning shows; otherwise a truthy book selection (a non-empty "id,name"
string — books[0] is None) enables the button (line 125), and pressing it runs
tab2_submit with the bookid split off at line 123.  Returns the resulting
database and the submit outcome, if any. -/
def tab2_step (db : DB) (st : SessionState) (select_book : Option String)
    (price : Int) (pressed : Bool) (today : String) :
    DB × Option SubmitResult :=
  match tab2_render st with
  | .warnNoCustomer => (db, Option.none)
  | .orderForm custid =>
    match select_book with
    | some sb =>
      if sb.length > 0 then
        if pressed then
          let r := tab2_submit db custid ((sb.splitOn ",").headD "") price today
          (r.2.1, some r.1)
        else (db, Option.none)
      else (db, Option.none)
    | Option.none => (db, Option.none)

/-- Sample database: one customer kim with one order of the book SQL. -/
def dbKim : DB :=
  ⟨[⟨1, "kim"⟩], [⟨1, 1, 1, 10000, "2024-01-01"⟩], [⟨1, "SQL"⟩]⟩

/-- Sample database: one customer lee with no orders. -/
def dbNoOrders : DB := ⟨[⟨3, "lee"⟩], [], [⟨1, "SQL"⟩]⟩

/-- Sample database: one customer kim and one existing order with orderid 7. -/
def db7 : DB := ⟨[⟨1, "kim"⟩], [⟨7, 1, 1, 9000, "2024-01-02"⟩], [⟨1, "SQL"⟩]⟩

/-- Session state as initialised at lines 64-66. -/
def st0 : SessionState := ⟨Option.none, some ""⟩

theorem acceptsKwargs_fetch_all : acceptsKwargs ["fetch_all"] = false := by
  decide

theorem tab2_submit_eq (db : DB) (custid : Int) (bookidStr : String)
    (price : Int) (today : String) :
    tab2_submit db custid bookidStr price today =
      (.typeError "fetch_all", db, []) := by
  unfold tab2_submit
  rw [acceptsKwargs_fetch_all]
  rfl

theorem sqlSelectJoin_nil_of_no_customer {db : DB} {nm : String}
    (h : ∀ c ∈ db.customers, c.name ≠ nm) : sqlSelectJoin db nm = [] := by
  rw [List.eq_nil_iff_forall_not_mem]
  intro r hr
  rw [mem_sqlSelectJoin] at hr
  obtain ⟨c, hc, _, _, _, _, _, _, h3, _⟩ := hr
  exact h c hc h3

theorem customerQuery_nil_of_no_customer {db : DB} {nm : String}
    (h : ∀ c ∈ db.customers, c.name ≠ nm) : customerQuery db nm = [] := by
  rw [customerQuery, List.filter_eq_nil_iff]
  intro c hc
  simpa using h c hc

theorem sqlSelectJoin_nil_of_no_orders {db : DB} {nm : String}
    (h : ∀ c ∈ db.customers, c.name = nm → ∀ o ∈ db.orders, o.custid ≠ c.custid) :
    sqlSelectJoin db nm = [] := by
  rw [List.eq_nil_iff_forall_not_mem]
  intro r hr
  rw [mem_sqlSelectJoin] at hr
  obtain ⟨c, hc, o, ho, _, _, h1, _, h3, _⟩ := hr
  exact h c hc h3 o ho h1.symm

/-- C1: the order-entry submit handler never assigns an orderid: at the
failing input (no prior orders, customer 3, book "1", price 10000) the handler
hits the TypeError of the fetch_all keyword at line 127 and leaves the
database unchanged, although the formula of line 128 would have produced
orderid 1 for this table. -/
theorem order_entry_assigns_no_orderid :
    tab2_submit dbNoOrders 3 "1" 10000 "2026-10-12" =
      (.typeError "fetch_all", dbNoOrders, []) ∧
    next_orderid dbNoOrders.orders = 1 := by
  exact ⟨tab2_submit_eq dbNoOrders 3 "1" 10000 "2026-10-12", by decide⟩

/-- C2: the order-entry submit handler never reports success: at the failing
input (existing maximum orderid 7) the handler raises the TypeError of line
127 before inserting anything or reaching the success report of line 143,
although line 128 would have produced orderid 8. -/
theorem order_entry_reports_no_success :
    tab2_submit db7 1 "1" 9500 "2026-10-12" =
      (.typeError "fetch_all", db7, []) ∧
    next_orderid db7.orders = 8 := by
  exact ⟨tab2_submit_eq db7 1 "1" 9500 "2026-10-12", by decide⟩

/-- C3: every activation of the submit button passes the keyword fetch_all,
which run_query does not declare, so the handler ends in a TypeError before
issuing any SQL statement, and every tab2 interaction with the button pressed
leaves the database — in particular the Orders table — unchanged. -/
theorem submit_always_typeerror :
    (∀ (db : DB) (custid : Int) (bookidStr : String) (price : Int)
        (today : String),
        tab2_submit db custid bookidStr price today =
          (.typeError "fetch_all", db, [])) ∧
    (∀ (db : DB) (st : SessionState) (sb : Option String) (price : Int)
        (today : String),
        (tab2_step db st sb price true today).1 = db ∧
        ((tab2_step db st sb price true today).2 = Option.none ∨
         (tab2_step db st sb price true today).2 =
           some (.typeError "fetch_all"))) := by
  refine ⟨fun db custid b price today => tab2_submit_eq db custid b price today,
    fun db st sb price today => ?_⟩
  unfold tab2_step
  cases tab2_render st with
  | warnNoCustomer => exact ⟨rfl, Or.inl rfl⟩
  | orderForm cid =>
    cases sb with
    | none => exact ⟨rfl, Or.inl rfl⟩
    | some s =>
      by_cases hl : s.length > 0
      · refine ⟨?_, Or.inr ?_⟩ <;> simp [hl, tab2_submit_eq]
      · exact ⟨by simp [hl], Or.inl (by simp [hl])⟩

/-- C4: looking up a non-empty name whose join result is non-empty displays
exactly the joined rows over Customer, Orders and Book for that name — the
displayed list contains a row precisely when joinSpec admits it — and stores
the first row's custid together with the name in session state. -/
theorem lookup_with_orders (db : DB) (st : SessionState) (nm : String)
    (r : JoinRow) (rs : List JoinRow)
    (h1 : 0 < nm.length) (h2 : sqlSelectJoin db nm = r :: rs) :
    tab1_lookup db st nm =
      (.ordersTable (r :: rs), ⟨some r.custid, some nm⟩) ∧
    ∀ x, x ∈ r :: rs ↔ joinSpec db nm x := by
  constructor
  · unfold tab1_lookup
    rw [if_pos h1, h2]
  · intro x
    rw [← h2]
    exact mem_sqlSelectJoin

/-- Witness for C4 on dbKim with name kim. -/
theorem lookup_with_orders_witness :
    tab1_lookup dbKim st0 "kim" =
      (.ordersTable [⟨1, "kim", "SQL", "2024-01-01", 10000⟩],
       ⟨some 1, some "kim"⟩) ∧
    ∀ x, x ∈ [(⟨1, "kim", "SQL", "2024-01-01", 10000⟩ : JoinRow)] ↔
      joinSpec dbKim "kim" x :=
  lookup_with_orders dbKim st0 "kim" ⟨1, "kim", "SQL", "2024-01-01", 10000⟩ []
    (by decide) (by decide)

/-- C5: looking up a non-empty name that matches no customer displays the
not-found warning and resets both session fields to None. -/
theorem lookup_no_customer (db : DB) (st : SessionState) (nm : String)
    (h1 : 0 < nm.length) (h2 : ∀ c ∈ db.customers, c.name ≠ nm) :
    tab1_lookup db st nm = (.notFound, ⟨Option.none, Option.none⟩) := by
  unfold tab1_lookup
  rw [if_pos h1, sqlSelectJoin_nil_of_no_customer h2,
    customerQuery_nil_of_no_customer h2]

/-- Witness for C5 on dbKim with the unknown name park. -/
theorem lookup_no_customer_witness :
    tab1_lookup dbKim st0 "park" = (.notFound, ⟨Option.none, Option.none⟩) :=
  lookup_no_customer dbKim st0 "park" (by decide) (by decide)

/-- C6: looking up a non-empty name of an existing customer none of whose
namesakes has any order yields an empty join result, displays the
informational customer-only message with that customer id, and stores the
customer id and the name in session state. -/
theorem lookup_customer_without_orders (db : DB) (st : SessionState)
    (nm : String) (c : Customer) (cs : List Customer)
    (h1 : 0 < nm.length) (h2 : customerQuery db nm = c :: cs)
    (h3 : ∀ c2 ∈ db.customers, c2.name = nm →
      ∀ o ∈ db.orders, o.custid ≠ c2.custid) :
    sqlSelectJoin db nm = [] ∧
    tab1_lookup db st nm =
      (.custOnlyInfo c.custid, ⟨some c.custid, some nm⟩) := by
  have hj : sqlSelectJoin db nm = [] := sqlSelectJoin_nil_of_no_orders h3
  refine ⟨hj, ?_⟩
  unfold tab1_lookup
  rw [if_pos h1, hj, h2]

/-- Witness for C6 on dbNoOrders with name lee. -/
theorem lookup_customer_without_orders_witness :
    sqlSelectJoin dbNoOrders "lee" = [] ∧
    tab1_lookup dbNoOrders st0 "lee" =
      (.custOnlyInfo 3, ⟨some 3, some "lee"⟩) :=
  lookup_customer_without_orders dbNoOrders st0 "lee" ⟨3, "lee"⟩ []
    (by decide) (by decide) (by decide)

/-- C7: with no customer in session state (current_custid is None) tab2 only
shows the warning of line 149, and no interaction — whatever book, price or
button press — changes the database or produces a submit result. -/
theorem no_customer_selected_rejects_order_entry (db : DB)
    (st : SessionState) (sb : Option String) (price : Int) (pressed : Bool)
    (today : String) (h : st.current_custid = Option.none) :
    tab2_render st = .warnNoCustomer ∧
    tab2_step db st sb price pressed today = (db, Option.none) := by
  have hr : tab2_render st = .warnNoCustomer := by
    simp [tab2_render, h, pyTruthy]
  refine ⟨hr, ?_⟩
  unfold tab2_step
  rw [hr]

/-- Witness for C7 on the initial session state. -/
theorem no_customer_selected_rejects_order_entry_witness :
    tab2_render st0 = .warnNoCustomer ∧
    tab2_step dbKim st0 (some "1,SQL") 10000 true "2026-10-12" =
      (dbKim, Option.none) :=
  no_customer_selected_rejects_order_entry dbKim st0 (some "1,SQL") 10000
    true "2026-10-12" rfl

/-- C8: when cursor.execute raises a database error, run_query catches it,
surfaces the message via st.error, and returns the empty list; it executed
the statement exactly once (no retry), did not commit, and made no
reconnection attempt. -/
theorem run_query_error_degrades :
    ∀ (msg : String) (commit : Bool),
      run_query (.err msg) commit =
        ⟨.list [], 1, false, some msg, 0⟩ := by
  intro msg commit
  rfl

/-- C9: every (sql, params) pair tab1 passes to run_query uses one of the two
fixed SQL string literals, with the input name only in the parameter list;
and the tab2 submit handler passes no SQL to the database at all (the
TypeError precedes both statements it would build). -/
theorem parameterized_queries :
    (∀ (db : DB) (nm : String) (p : String × List PyVal),
        p ∈ tab1_statements db nm →
          (p.1 = sql_select ∨ p.1 = sql_customer) ∧ p.2 = [PyVal.str nm]) ∧
    (∀ (db : DB) (custid : Int) (bookidStr : String) (price : Int)
        (today : String),
        (tab2_submit db custid bookidStr price today).2.2 =
          ([] : List (String × List PyVal))) := by
  constructor
  · intro db nm p hp
    unfold tab1_statements at hp
    split at hp
    · split at hp
      · simp only [List.mem_cons, List.mem_singleton, List.not_mem_nil,
          or_false] at hp
        rcases hp with h | h <;> rw [h] <;> simp
      · simp only [List.mem_singleton] at hp
        rw [hp]
        simp
    · simp at hp
  · intro db custid b price today
    rw [tab2_submit_eq]

set_option maxRecDepth 4096 in
/-- Witness for C9: the single statement of a lookup of kim in dbKim is the
fixed join SQL with the name bound as its only parameter; and a concrete
submit issues no statement. -/
theorem parameterized_queries_witness :
    (((sql_select, [PyVal.str "kim"]) : String × List PyVal).1 = sql_select ∨
     ((sql_select, [PyVal.str "kim"]) : String × List PyVal).1 = sql_customer) ∧
    ((sql_select, [PyVal.str "kim"]) : String × List PyVal).2 =
      [PyVal.str "kim"] :=
  parameterized_queries.1 dbKim "kim" (sql_select, [PyVal.str "kim"])
    (by decide)

/-- C10: a session whose stored customer id is 0 fails the truthiness guard
of line 111 exactly as None does: tab2 shows the no-customer warning and no
interaction changes the database or produces a submit result. -/
theorem custid_zero_treated_as_no_customer (db : DB) (st : SessionState)
    (sb : Option String) (price : Int) (pressed : Bool) (today : String)
    (h : st.current_custid = some 0) :
    tab2_render st = .warnNoCustomer ∧
    tab2_step db st sb price pressed today = (db, Option.none) := by
  have hr : tab2_render st = .warnNoCustomer := by
    simp [tab2_render, h, pyTruthy]
  refine ⟨hr, ?_⟩
  unfold tab2_step
  rw [hr]

/-- Witness for C10 with a session holding customer id 0. -/
theorem custid_zero_treated_as_no_customer_witness :
    tab2_render ⟨some 0, some "kim"⟩ = .warnNoCustomer ∧
    tab2_step dbKim ⟨some 0, some "kim"⟩ (some "1,SQL") 10000 true
      "2026-10-12" = (dbKim, Option.none) :=
  custid_zero_treated_as_no_customer dbKim ⟨some 0, some "kim"⟩
    (some "1,SQL") 10000 true "2026-10-12" rfl

end Madang
